import Mathlib

/-!
Shallow embedding of the OpenPipe v1 API router (`v1ApiRouter` in
`src/app/.../TrainingData.tsx`, the `createChatCompletion` and `report`
mutations) together with the supporting utilities they call.  Pure helpers
whose sources are present are translated directly; helpers that the router
imports from modules not present in the source tree (`recordRequest`,
`parseTags`, `trpcStatusCodes`, the OpenAI SDK's `Stream.tee`) are modelled
from the specification, each marked in its doc comment.
-/

namespace OpenPipe

/-! ## Basic data model -/

/-- An API key as seen by the router context: the authenticated project and
the read-only capability flag. -/
structure ApiKey where
  projectId : String
  readOnly : Bool
deriving DecidableEq, Repr

/-- A scalar tag value, as accepted by the `report` input schema
(`z.record(z.union([z.string(), z.number(), z.boolean(), z.null()]))`). -/
inductive TagScalar where
  | str (s : String)
  | num (n : Int)
  | bool (b : Bool)
  | null
deriving DecidableEq, Repr

/-- The `op-tags` request header: absent, present but not parseable as JSON
(in which case `JSON.parse` throws and the router raises BAD_REQUEST), or a
parsed flat record of scalars. -/
inductive TagsHeader where
  | absent
  | malformed (msg : String)
  | valid (tags : List (String × TagScalar))
deriving DecidableEq, Repr

/-- Whether the `op-tags` header is present but unparseable. -/
def TagsHeader.isMalformed : TagsHeader → Bool
  | .malformed _ => true
  | _ => false

/-- The request context (`ctx`): the authenticated key and the two optional
headers the router reads. -/
structure Ctx where
  key : ApiKey
  opLogRequest : Option String
  opTags : TagsHeader
deriving DecidableEq, Repr

/-- A chat message of the request payload. -/
structure ChatMessage where
  role : String
  content : String
deriving DecidableEq, Repr

/-- The parsed chat-completion request payload
(`chatCompletionInputReqPayload.parse(input)`): the requested model, the
messages, and the streaming flag.  Other generation parameters are carried
opaquely by the provider call and do not influence the router's control
flow. -/
structure InputPayload where
  model : String
  messages : List ChatMessage
  stream : Bool
deriving DecidableEq, Repr

/-- A (fully assembled) chat completion response: generated content plus the
provider-reported token counts when present. -/
structure ChatCompletion where
  content : String
  promptTokens : Option Nat
  completionTokens : Option Nat
deriving DecidableEq, Repr

/-- One incremental chunk of a streamed completion (its content delta). -/
abbrev Chunk := String

/-- The polymorphic provider result shape: a single completion object or a
stream of chunks (`ChatCompletion | Stream<ChatCompletionChunk>`). -/
inductive Completion where
  | single (c : ChatCompletion)
  | stream (chunks : List Chunk)
deriving DecidableEq, Repr

/-- Outcome of one provider invocation (`getCompletion2` /
`getOpenaiCompletion`), supplied as an oracle of the environment: a
successful result, a provider-reported `APIError` carrying an HTTP status,
or any other failure (network, serialization). -/
inductive ProviderOutcome where
  | success (c : Completion)
  | apiError (status : Nat) (msg : String)
  | otherError (msg : String)
deriving DecidableEq, Repr

/-- A fine-tune (Custom Model) record, as read by
`prisma.fineTune.findUnique({ where: { slug } })`. -/
structure FineTune where
  slug : String
  projectId : String
deriving DecidableEq, Repr

/-! ## Error taxonomy

Modelled from the spec: `statusCodeFromTrpcCode` / `trpcCodeFromHttpStatus`
(`~/server/utils/trpcStatusCodes.ts`, not in the source tree).  The spec's
error table (§4.8) fixes NotFound ↦ 404, Forbidden ↦ 403, BadRequest ↦ 400
and says provider-reported statuses pass through unreinterpreted, so error
codes are identified with their HTTP-equivalent status numbers. -/

def NOT_FOUND : Nat := 404

def FORBIDDEN : Nat := 403

def BAD_REQUEST : Nat := 400

/-- Modelled from the spec: maps an upstream HTTP status to the error code
raised to the caller; §4.4 requires pass-through of the upstream status. -/
def trpcCodeFromHttpStatus (status : Nat) : Nat := status

/-- Modelled from the spec: maps an error code back to the HTTP-equivalent
status recorded on the Logged Call; inverse of the table in §4.8. -/
def statusCodeFromTrpcCode (code : Nat) : Nat := code

/-- A TRPC error as thrown by the router: code (HTTP-equivalent, see above)
and message. -/
structure TRPCErr where
  code : Nat
  message : String
deriving DecidableEq, Repr

/-! ## String helpers (`model.startsWith("openpipe:")`,
`model.replace("openpipe:", "")`) -/

/-- Boolean list-of-chars matcher: does the second list start with the
first? -/
def hasPre : List Char → List Char → Bool
  | [], _ => true
  | _ :: _, [] => false
  | p :: ps, c :: cs => p == c && hasPre ps cs

/-- Removes the first occurrence of `pat` from a character list, as the JS
`String.replace(pat, "")` with a string pattern does. -/
def removeFirstOcc (pat : List Char) : List Char → List Char
  | [] => []
  | c :: cs =>
    if hasPre pat (c :: cs) then (c :: cs).drop pat.length
    else c :: removeFirstOcc pat cs

/-- `inputPayload.model.startsWith("openpipe:")` — the custom-model
namespace test. -/
def startsWithOpenpipe (s : String) : Bool :=
  hasPre "openpipe:".toList s.toList

/-- `model.replace("openpipe:", "")` — strips the first occurrence of the
namespace marker, yielding the custom model's slug. -/
def modelSlug (s : String) : String :=
  ⟨removeFirstOcc "openpipe:".toList s.toList⟩

/-! ## Tag parsing -/

/-- Modelled from the spec: `parseTags` (`~/server/utils/parseTags.ts`, not
in the source tree).  §4.1: keys are lower-cased and trimmed, scalar values
are stringified, and `null` values mean "delete/ignore this tag".  The
non-flat-input failure mode cannot arise here because the input type is
already a flat mapping of scalars. -/
def parseTags (ts : List (String × TagScalar)) : List (String × String) :=
  ts.filterMap fun kv =>
    match kv.2 with
    | .null => none
    | .str s => some (kv.1.trim.toLower, s)
    | .num n => some (kv.1.trim.toLower, toString n)
    | .bool b => some (kv.1.trim.toLower, if b then "true" else "false")

/-- The router's handling of the `op-tags` header: absent means no tags,
a JSON parse failure becomes a BAD_REQUEST `TRPCError`, and parsed JSON is
normalized by `parseTags`. -/
def parseTagsHeader : TagsHeader → Except TRPCErr (List (String × String))
  | .absent => .ok []
  | .malformed msg =>
      .error ⟨BAD_REQUEST, "Failed to parse tags: " ++ msg⟩
  | .valid ts => .ok (parseTags ts)

/-! ## Stream splitter (tee)

Modelled from the spec: the OpenAI SDK's `Stream.tee` used at
`const [recordStream, outputStream] = completion.tee()` is library code not
in the source tree.  §4.5/§9 describe it as two independently-buffered
readers over one upstream source: each reader pops from its own queue and,
when that queue is empty, pulls the next chunk from the shared source while
buffering it for the other reader. -/

/-- State of a teed stream: the not-yet-pulled source suffix and the two
per-reader queues of chunks already pulled by the other reader. -/
structure TeeState (α : Type) where
  source : List α
  qa : List α
  qb : List α
deriving DecidableEq, Repr

/-- Initial tee state over a chunk sequence: nothing buffered. -/
def teeInit {α : Type} (chunks : List α) : TeeState α :=
  ⟨chunks, [], []⟩

/-- Reader A takes one chunk: from its queue if nonempty, else by pulling
from the source (buffering the pulled chunk for reader B). -/
def readA {α : Type} : TeeState α → Option α × TeeState α
  | ⟨src, a :: qa, qb⟩ => (some a, ⟨src, qa, qb⟩)
  | ⟨[], [], qb⟩ => (none, ⟨[], [], qb⟩)
  | ⟨x :: src, [], qb⟩ => (some x, ⟨src, [], qb ++ [x]⟩)

/-- Reader B takes one chunk, symmetrically to `readA`. -/
def readB {α : Type} : TeeState α → Option α × TeeState α
  | ⟨src, qa, b :: qb⟩ => (some b, ⟨src, qa, qb⟩)
  | ⟨[], qa, []⟩ => (none, ⟨[], qa, []⟩)
  | ⟨x :: src, qa, []⟩ => (some x, ⟨src, qa ++ [x], []⟩)

/-- Runs the two readers under an arbitrary demand schedule (`true` = reader
A reads next, `false` = reader B reads next), collecting what each reader
observes. -/
def runTee {α : Type} : TeeState α → List Bool → List α × List α
  | _, [] => ([], [])
  | s, true :: rest =>
    let step := readA s
    let next := runTee step.2 rest
    (step.1.toList ++ next.1, next.2)
  | s, false :: rest =>
    let step := readB s
    let next := runTee step.2 rest
    (next.1, step.1.toList ++ next.2)

/-- Chunks still observable by reader A: its queue followed by the shared
source suffix. -/
def pendA {α : Type} (s : TeeState α) : List α := s.qa ++ s.source

/-- Chunks still observable by reader B. -/
def pendB {α : Type} (s : TeeState α) : List α := s.qb ++ s.source

/-- A demand schedule ample enough to drain both branches of a stream of
`n` chunks. -/
def teeSched (n : Nat) : List Bool :=
  List.replicate n true ++ List.replicate n false

/-- `completion.tee()` followed by both consumers running to completion:
the accounting branch (`recordStream`, first component) and the
caller-facing branch (`outputStream`, second component). -/
def streamTee (chunks : List Chunk) : List Chunk × List Chunk :=
  runTee (teeInit chunks) (teeSched chunks.length)

/-! ## The durable store and the recording path -/

/-- A per-token cost basis in micro-cents, giving usage a concrete cost
model; fine-tuned models use the custom serving rate. -/
structure CalculatedUsage where
  inputTokens : Nat
  outputTokens : Nat
  cost : Nat
deriving DecidableEq, Repr

/-- Modelled from the spec: the local tokenizer used by `calculateUsage`
(§4.6); abstracted as content length, which is all the claims need of it. -/
def countTokens (s : String) : Nat := s.length

/-- Modelled from the spec: `calculateUsage` (`~/utils/recordRequest.ts`,
not in the source tree).  §4.6: input tokens from the request messages,
output tokens from generated content, preferring provider-reported counts
when present; cost is a model-specific per-token rate, with a custom basis
when the model is a fine-tune. -/
def calculateUsage (inputPayload : InputPayload) (completion : ChatCompletion)
    (fineTune : Option FineTune) : CalculatedUsage :=
  let inputTokens :=
    completion.promptTokens.getD
      ((inputPayload.messages.map fun m => countTokens m.content).sum)
  let outputTokens := completion.completionTokens.getD (countTokens completion.content)
  let rate := if fineTune.isSome then 2 else 1
  ⟨inputTokens, outputTokens, rate * (inputTokens + outputTokens)⟩

/-- A raw (not yet validated) JSON payload value, as carried by the
`z.unknown()` fields of `report` and stored verbatim on the Logged Call:
a chat-completion request, a chat-completion response, the error object
the router logs on failure, some other JSON value, or absent
(undefined/null). -/
inductive RawPayload where
  | reqP (p : InputPayload)
  | respP (c : ChatCompletion)
  | errObj (code : Nat) (msg : String)
  | other (s : String)
  | absent
deriving DecidableEq, Repr

/-- `reqValidator.spa(input.reqPayload)` — zod safe-parse of a raw value
against the chat-completion request schema. -/
def reqValidatorSpa : RawPayload → Option InputPayload
  | .reqP p => some p
  | _ => none

/-- `chatCompletionOutput.spa(input.respPayload)` — zod safe-parse of a raw
value against the chat-completion response schema. -/
def chatCompletionOutputSpa : RawPayload → Option ChatCompletion
  | .respP c => some c
  | _ => none

/-- The durable Logged Call row
(`record(project, requestedAt, receivedAt, reqPayload, respPayload?,
statusCode?, errorMessage?, usage?, tags)`). -/
structure LoggedCall where
  projectId : String
  requestedAt : Nat
  receivedAt : Option Nat
  reqPayload : RawPayload
  respPayload : RawPayload
  statusCode : Option Nat
  errorMessage : Option String
  usage : Option CalculatedUsage
  tags : List (String × String)
deriving DecidableEq, Repr

/-- The externally visible effects of a request: Logged Call rows appended
to the durable store and exceptions captured by the observability sink. -/
structure Store where
  loggedCalls : List LoggedCall
  sentry : List String
deriving DecidableEq, Repr

/-- The empty effect record. -/
def Store.empty : Store := ⟨[], []⟩

/-- Modelled from the spec: `recordLoggedCall` (`~/utils/recordRequest.ts`,
not in the source tree).  §4.7/§7: writes one Logged Call; its own failure
(storage unavailable) is caught and reported to the observability sink,
never re-raised and never retried, so the write is dropped on failure. -/
def recordLoggedCall (storageFails : Bool) (call : LoggedCall) (st : Store) : Store :=
  if storageFails then
    { st with sentry := st.sentry ++ ["recordLoggedCall: storage write failed"] }
  else
    { st with loggedCalls := st.loggedCalls ++ [call] }

/-- Reassembles a streamed response from the accounting branch's chunks so
usage can be computed from whatever was actually generated (§5). -/
def assembleChunks (chunks : List Chunk) : ChatCompletion :=
  ⟨String.join chunks, none, none⟩

/-- Modelled from the spec: `recordUsage` (`~/utils/recordRequest.ts`, not
in the source tree).  It computes usage from the request/response pair
(§4.6) and, when the call site's `logRequest` flag is set, records one
successful Logged Call (status 200) through `recordLoggedCall`; with the
flag unset nothing is written. -/
def recordUsage (storageFails : Bool) (projectId : String)
    (requestedAt receivedAt : Nat) (inputPayload : InputPayload)
    (completion : ChatCompletion) (logRequest : Bool)
    (fineTune : Option FineTune) (tags : List (String × String))
    (st : Store) : Store :=
  let usage := calculateUsage inputPayload completion fineTune
  if logRequest then
    recordLoggedCall storageFails
      { projectId := projectId
        requestedAt := requestedAt
        receivedAt := some receivedAt
        reqPayload := .reqP inputPayload
        respPayload := .respP completion
        statusCode := some 200
        errorMessage := none
        usage := some usage
        tags := tags } st
  else st

/-! ## The environment (database and I/O oracles) -/

/-- The per-request environment: the fine-tune table, the outcome each
provider would produce if invoked, whether the durable store's write would
fail, and the two wall-clock readings (`requestedAt`, `receivedAt`). -/
structure Env where
  fineTunes : List FineTune
  fineTuneOutcome : ProviderOutcome
  openaiOutcome : ProviderOutcome
  storageFails : Bool
  requestedAtTime : Nat
  receivedAtTime : Nat
deriving DecidableEq, Repr

/-- `prisma.fineTune.findUnique({ where: { slug } })`. -/
def lookupFineTune (env : Env) (slug : String) : Option FineTune :=
  env.fineTunes.find? fun ft => ft.slug == slug

/-- The `logRequest` flag computed by `createChatCompletion`:
`(headers["op-log-request"] === "true" || !isFineTune) &&
headers["op-log-request"] !== "false" && !ctx.key.readOnly`. -/
def logRequestFlag (ctx : Ctx) (model : String) : Bool :=
  (ctx.opLogRequest == some "true" || !startsWithOpenpipe model)
    && !(ctx.opLogRequest == some "false") && !ctx.key.readOnly

/-- The caller-facing outcome of `createChatCompletion`: a single
completion, a readable stream of chunks, or a thrown
(`ExtendedTRPCError`) error. -/
inductive CCResult where
  | singleResult (c : ChatCompletion)
  | streamResult (chunks : List Chunk)
  | error (e : TRPCErr)
deriving DecidableEq, Repr

/-- Whether the outcome is a thrown error. -/
def CCResult.isError : CCResult → Bool
  | .error _ => true
  | _ => false

/-- The thrown error's code, when the outcome is an error. -/
def CCResult.errorCode : CCResult → Option Nat
  | .error e => some e.code
  | _ => none

/-- Result, recording effects, and the number of provider serving-endpoint
invocations performed while handling one `createChatCompletion` request. -/
structure CCOutput where
  result : CCResult
  store : Store
  providerCalls : Nat
deriving DecidableEq, Repr

/-- Provider dispatch (the `if (isFineTune) ... else ...` body): resolves a
custom model and invokes `getCompletion2`, or invokes
`getOpenaiCompletion`, translating each failure as the source does.  The
second component counts provider invocations. -/
def dispatch (env : Env) (key : ApiKey) (inputPayload : InputPayload) :
    Except TRPCErr (Completion × Option FineTune) × Nat :=
  if startsWithOpenpipe inputPayload.model then
    match lookupFineTune env (modelSlug inputPayload.model) with
    | none =>
        (.error ⟨NOT_FOUND, "The model `" ++ inputPayload.model ++ "` does not exist"⟩, 0)
    | some fineTune =>
        if fineTune.projectId ≠ key.projectId then
          (.error ⟨FORBIDDEN, "The model does not belong to this project"⟩, 0)
        else
          match env.fineTuneOutcome with
          | .success c => (.ok (c, some fineTune), 1)
          | .apiError _ msg =>
              (.error ⟨BAD_REQUEST, "Failed to get fine-tune completion: " ++ msg⟩, 1)
          | .otherError msg =>
              (.error ⟨BAD_REQUEST, "Failed to get fine-tune completion: " ++ msg⟩, 1)
  else
    match env.openaiOutcome with
    | .success c => (.ok (c, none), 1)
    | .apiError status msg =>
        (.error ⟨trpcCodeFromHttpStatus status, msg⟩, 1)
    | .otherError msg =>
        (.error ⟨BAD_REQUEST, "Failed to get OpenAI completion: " ++ msg⟩, 1)

/-- The catch block of `createChatCompletion`: records the failure as a
Logged Call whose response payload is the error object
`{ code, message }`, with the HTTP-equivalent status and the error
message, before the error is re-thrown to the caller. -/
def logFailedCall (env : Env) (key : ApiKey) (inputPayload : InputPayload)
    (tags : List (String × String)) (e : TRPCErr) (st : Store) : Store :=
  recordLoggedCall env.storageFails
    { projectId := key.projectId
      requestedAt := env.requestedAtTime
      receivedAt := some env.receivedAtTime
      reqPayload := .reqP inputPayload
      respPayload := .errObj e.code e.message
      statusCode := some (statusCodeFromTrpcCode e.code)
      errorMessage := some e.message
      usage := none
      tags := tags } st

/-- The `createChatCompletion` mutation over an already-validated input
payload: parses the `op-tags` header, dispatches to the fine-tune or
OpenAI provider, tees streamed responses (accounting branch to
`recordUsage`, output branch to the caller), fires the recording path
without awaiting it, and on any `TRPCError` logs a failed call and
re-throws. -/
def createChatCompletion (ctx : Ctx) (env : Env) (inputPayload : InputPayload) :
    CCOutput :=
  let logRequest := logRequestFlag ctx inputPayload.model
  match parseTagsHeader ctx.opTags with
  | .error e =>
      { result := .error e
        store := logFailedCall env ctx.key inputPayload [] e Store.empty
        providerCalls := 0 }
  | .ok tags =>
    match dispatch env ctx.key inputPayload with
    | (.error e, n) =>
        { result := .error e
          store := logFailedCall env ctx.key inputPayload tags e Store.empty
          providerCalls := n }
    | (.ok (.stream chunks, fineTune), n) =>
        let teed := streamTee chunks
        { result := .streamResult teed.2
          store := recordUsage env.storageFails ctx.key.projectId
            env.requestedAtTime env.receivedAtTime inputPayload
            (assembleChunks teed.1) logRequest fineTune tags Store.empty
          providerCalls := n }
    | (.ok (.single c, fineTune), n) =>
        { result := .singleResult c
          store := recordUsage env.storageFails ctx.key.projectId
            env.requestedAtTime env.receivedAtTime inputPayload
            c logRequest fineTune tags Store.empty
          providerCalls := n }

/-! ## The `report` mutation -/

/-- The `report` input body.  There is no usage field: the input schema
does not accept one. -/
structure ReportInput where
  requestedAt : Option Nat
  receivedAt : Option Nat
  reqPayload : RawPayload
  respPayload : RawPayload
  statusCode : Option Nat
  errorMessage : Option String
  tags : List (String × TagScalar)
deriving DecidableEq, Repr

/-- The caller-facing outcome of `report`. -/
inductive ReportResult where
  | ok (status : String)
  | error (e : TRPCErr)
deriving DecidableEq, Repr

/-- Result and recording effects of one `report` call. -/
structure ReportOutput where
  result : ReportResult
  store : Store
deriving DecidableEq, Repr

/-- `if (!input.requestedAt) input.requestedAt = Date.now()` — JS falsiness
replaces both a missing timestamp and an explicit `0`. -/
def defaultRequestedAt : Option Nat → Nat → Nat
  | none, now => now
  | some 0, now => now
  | some t, _ => t

/-- The `report` mutation: rejects read-only keys with FORBIDDEN before any
write, recomputes usage server-side from the supplied payloads when both
validate (leaving it unset otherwise), normalizes tags, and records one
Logged Call holding the raw payloads as supplied.  The source's catch
around the record call cannot fire under the §4.7 recorder model, which
never re-raises. -/
def report (ctx : Ctx) (env : Env) (input : ReportInput) : ReportOutput :=
  if ctx.key.readOnly then
    { result := .error ⟨FORBIDDEN, "Read-only API keys cannot report API calls"⟩
      store := Store.empty }
  else
    let requestedAt := defaultRequestedAt input.requestedAt env.requestedAtTime
    let reqParsed := reqValidatorSpa input.reqPayload
    let respParsed := chatCompletionOutputSpa input.respPayload
    let usage : Option CalculatedUsage :=
      match reqParsed, respParsed with
      | some req, some resp =>
          some (calculateUsage req resp (lookupFineTune env (modelSlug req.model)))
      | _, _ => none
    let tags := parseTags input.tags
    let st := recordLoggedCall env.storageFails
      { projectId := ctx.key.projectId
        requestedAt := requestedAt
        receivedAt := input.receivedAt
        reqPayload := input.reqPayload
        respPayload := input.respPayload
        statusCode := input.statusCode
        errorMessage := input.errorMessage
        usage := usage
        tags := tags } Store.empty
    { result := .ok "ok", store := st }

/-! ## Tee lemmas -/

/-- Reader A pops the head of its pending sequence and leaves reader B's
pending sequence untouched. -/
theorem readA_spec {α : Type} (s : TeeState α) :
    (readA s).1 = (pendA s).head? ∧ pendA (readA s).2 = (pendA s).tail ∧
      pendB (readA s).2 = pendB s := by
  rcases s with ⟨src, qa, qb⟩
  cases qa <;> cases src <;> simp [readA, pendA, pendB]

/-- Reader B pops the head of its pending sequence and leaves reader A's
pending sequence untouched. -/
theorem readB_spec {α : Type} (s : TeeState α) :
    (readB s).1 = (pendB s).head? ∧ pendB (readB s).2 = (pendB s).tail ∧
      pendA (readB s).2 = pendA s := by
  rcases s with ⟨src, qa, qb⟩
  cases qb <;> cases src <;> simp [readB, pendA, pendB]

/-- What reader A observes under a schedule is exactly the first
`sched.count true` elements of its pending sequence: B's demand rate is
irrelevant to A. -/
theorem runTee_fst {α : Type} (sched : List Bool) :
    ∀ s : TeeState α, (runTee s sched).1 = (pendA s).take (sched.count true) := by
  induction sched with
  | nil => intro s; simp [runTee]
  | cons b rest ih =>
    intro s
    cases b with
    | false =>
      have hB := (readB_spec s).2.2
      simp only [runTee, List.count_cons, ih, hB]
      simp
    | true =>
      have hA := readA_spec s
      simp only [runTee, List.count_cons, ih, hA.2.1]
      rcases hp : pendA s with _ | ⟨x, xs⟩
      · simp [hA.1, hp]
      · simp [hA.1, hp]

/-- What reader B observes under a schedule is exactly the first
`sched.count false` elements of its pending sequence. -/
theorem runTee_snd {α : Type} (sched : List Bool) :
    ∀ s : TeeState α, (runTee s sched).2 = (pendB s).take (sched.count false) := by
  induction sched with
  | nil => intro s; simp [runTee]
  | cons b rest ih =>
    intro s
    cases b with
    | true =>
      have hA := (readA_spec s).2.2
      simp only [runTee, List.count_cons, ih, hA]
      simp
    | false =>
      have hB := readB_spec s
      simp only [runTee, List.count_cons, ih, hB.2.1]
      rcases hp : pendB s with _ | ⟨x, xs⟩
      · simp [hB.1, hp]
      · simp [hB.1, hp]

/-- Taking at least the whole list gives back the list. -/
theorem take_len_le {α : Type} : ∀ (l : List α) (n : Nat), l.length ≤ n → l.take n = l := by
  intro l
  induction l with
  | nil => intro n _; simp
  | cons x xs ih =>
    intro n h
    cases n with
    | zero => simp at h
    | succ m => simp [List.take_succ_cons, ih m (by simpa using h)]

/-- Counting a boolean in a constant list of itself. -/
theorem count_replicate_same (b : Bool) (n : Nat) : (List.replicate n b).count b = n := by
  induction n with
  | zero => simp
  | succ m ih => simp [List.replicate_succ, List.count_cons, ih]

/-- Counting a boolean in a constant list of the other boolean. -/
theorem count_replicate_other (b : Bool) (n : Nat) :
    (List.replicate n (!b)).count b = 0 := by
  induction n with
  | zero => simp
  | succ m ih => simp [List.replicate_succ, List.count_cons, ih]

/-- The canonical drain schedule has `n` reads for each branch. -/
theorem teeSched_counts (n : Nat) :
    (teeSched n).count true = n ∧ (teeSched n).count false = n := by
  constructor
  · have := count_replicate_other true n
    simp only [Bool.not_true] at this
    simp [teeSched, List.count_append, count_replicate_same, this]
  · have := count_replicate_other false n
    simp only [Bool.not_false] at this
    simp [teeSched, List.count_append, count_replicate_same, this]

/-- Under any schedule giving each branch at least as many reads as there
are chunks, both branches observe exactly the original sequence. -/
theorem runTee_full {α : Type} (l : List α) (sched : List Bool)
    (ha : l.length ≤ sched.count true) (hb : l.length ≤ sched.count false) :
    runTee (teeInit l) sched = (l, l) := by
  have h1 := runTee_fst sched (teeInit l)
  have h2 := runTee_snd sched (teeInit l)
  have hpa : pendA (teeInit l) = l := by simp [pendA, teeInit]
  have hpb : pendB (teeInit l) = l := by simp [pendB, teeInit]
  rw [hpa, take_len_le l _ ha] at h1
  rw [hpb, take_len_le l _ hb] at h2
  calc runTee (teeInit l) sched
      = ((runTee (teeInit l) sched).1, (runTee (teeInit l) sched).2) := rfl
    _ = (l, l) := by rw [h1, h2]

/-- The tee used by the router hands each consumer the full original
sequence. -/
theorem streamTee_eq (l : List Chunk) : streamTee l = (l, l) := by
  unfold streamTee
  exact runTee_full l _ (le_of_eq (teeSched_counts l.length).1.symm)
    (le_of_eq (teeSched_counts l.length).2.symm)

/-! ## Concrete example inputs for witnesses and counterexamples -/

/-- A non-read-only key of project `proj-1`. -/
def exKey : ApiKey := ⟨"proj-1", false⟩

/-- A context with no optional headers set. -/
def exCtx : Ctx := ⟨exKey, none, .absent⟩

/-- A one-message conversation. -/
def exMessages : List ChatMessage := [⟨"user", "hi"⟩]

/-- A deployed fine-tune of project `proj-1` with slug `my-model`. -/
def exFineTune : FineTune := ⟨"my-model", "proj-1"⟩

/-- A healthy environment: the fine-tune exists, both providers succeed
with single completions, storage works. -/
def exEnv : Env :=
  ⟨[exFineTune], .success (.single ⟨"hello", some 5, some 7⟩),
    .success (.single ⟨"hey", some 3, some 2⟩), false, 100, 200⟩

/-- A request for the fine-tuned model. -/
def exInputFT : InputPayload := ⟨"openpipe:my-model", exMessages, false⟩

/-- A request for an upstream model. -/
def exInputUp : InputPayload := ⟨"gpt-4", exMessages, false⟩

/-- A well-formed `report` body with both payloads valid. -/
def exReportInput : ReportInput :=
  ⟨some 1, some 2, .reqP exInputUp, .respP ⟨"hey", some 3, some 2⟩, some 200, none, []⟩

/-! ## Branch characterization of `createChatCompletion` -/

/-- Exhaustive branch characterization of `createChatCompletion`: the
malformed-tags failure, a dispatch failure, and the two success shapes,
each with the effects the recording path produces. -/
theorem createChatCompletion_cases (ctx : Ctx) (env : Env) (input : InputPayload) :
    (∃ m, ctx.opTags = .malformed m ∧
      createChatCompletion ctx env input =
        { result := .error ⟨BAD_REQUEST, "Failed to parse tags: " ++ m⟩
          store := logFailedCall env ctx.key input []
            ⟨BAD_REQUEST, "Failed to parse tags: " ++ m⟩ Store.empty
          providerCalls := 0 }) ∨
    (∃ tags e n, parseTagsHeader ctx.opTags = .ok tags ∧
      dispatch env ctx.key input = (.error e, n) ∧
      createChatCompletion ctx env input =
        { result := .error e
          store := logFailedCall env ctx.key input tags e Store.empty
          providerCalls := n }) ∨
    (∃ tags chunks ft n, parseTagsHeader ctx.opTags = .ok tags ∧
      dispatch env ctx.key input = (.ok (.stream chunks, ft), n) ∧
      createChatCompletion ctx env input =
        { result := .streamResult (streamTee chunks).2
          store := recordUsage env.storageFails ctx.key.projectId env.requestedAtTime
            env.receivedAtTime input (assembleChunks (streamTee chunks).1)
            (logRequestFlag ctx input.model) ft tags Store.empty
          providerCalls := n }) ∨
    (∃ tags c ft n, parseTagsHeader ctx.opTags = .ok tags ∧
      dispatch env ctx.key input = (.ok (.single c, ft), n) ∧
      createChatCompletion ctx env input =
        { result := .singleResult c
          store := recordUsage env.storageFails ctx.key.projectId env.requestedAtTime
            env.receivedAtTime input c (logRequestFlag ctx input.model) ft tags Store.empty
          providerCalls := n }) := by
  cases hops : ctx.opTags with
  | malformed m =>
    exact Or.inl ⟨m, rfl, by simp [createChatCompletion, parseTagsHeader, hops]⟩
  | absent =>
    rcases hd : dispatch env ctx.key input with ⟨exc, n⟩
    cases exc with
    | error e =>
      exact Or.inr (Or.inl ⟨[], e, n, rfl,
        rfl, by simp [createChatCompletion, parseTagsHeader, hops, hd]⟩)
    | ok pr =>
      rcases pr with ⟨comp, ft⟩
      cases comp with
      | stream chunks =>
        exact Or.inr (Or.inr (Or.inl ⟨[], chunks, ft, n, rfl,
          rfl, by simp [createChatCompletion, parseTagsHeader, hops, hd, streamTee]⟩))
      | single c =>
        exact Or.inr (Or.inr (Or.inr ⟨[], c, ft, n, rfl,
          rfl, by simp [createChatCompletion, parseTagsHeader, hops, hd]⟩))
  | valid ts =>
    rcases hd : dispatch env ctx.key input with ⟨exc, n⟩
    cases exc with
    | error e =>
      exact Or.inr (Or.inl ⟨parseTags ts, e, n, rfl,
        rfl, by simp [createChatCompletion, parseTagsHeader, hops, hd]⟩)
    | ok pr =>
      rcases pr with ⟨comp, ft⟩
      cases comp with
      | stream chunks =>
        exact Or.inr (Or.inr (Or.inl ⟨parseTags ts, chunks, ft, n, rfl,
          rfl, by simp [createChatCompletion, parseTagsHeader, hops, hd, streamTee]⟩))
      | single c =>
        exact Or.inr (Or.inr (Or.inr ⟨parseTags ts, c, ft, n, rfl,
          rfl, by simp [createChatCompletion, parseTagsHeader, hops, hd]⟩))

/-! ## Claims -/

/-- C3: `report` called with a read-only credential fails with
ForbiddenError and writes zero Logged Call rows — the store is
unchanged. -/
theorem c3_report_readonly_forbidden (ctx : Ctx) (env : Env) (input : ReportInput)
    (hro : ctx.key.readOnly = true) :
    (report ctx env input).result
        = .error ⟨FORBIDDEN, "Read-only API keys cannot report API calls"⟩ ∧
      (report ctx env input).store.loggedCalls = [] ∧
      (report ctx env input).store = Store.empty := by
  refine ⟨?_, ?_, ?_⟩ <;> simp [report, hro, Store.empty]

/-- Witness for C3 at a concrete read-only key. -/
theorem c3_report_readonly_forbidden_witness :
    (report ⟨⟨"proj-1", true⟩, none, .absent⟩ exEnv exReportInput).result
        = .error ⟨FORBIDDEN, "Read-only API keys cannot report API calls"⟩ ∧
      (report ⟨⟨"proj-1", true⟩, none, .absent⟩ exEnv exReportInput).store.loggedCalls = [] ∧
      (report ⟨⟨"proj-1", true⟩, none, .absent⟩ exEnv exReportInput).store = Store.empty :=
  c3_report_readonly_forbidden ⟨⟨"proj-1", true⟩, none, .absent⟩ exEnv exReportInput rfl

/-- C5: the stream split (`completion.tee()`) yields two branches — the
accounting branch and the caller-facing branch — each observing every chunk
of the original sequence, in the original order, exactly once, under any
interleaving of the two consumers that drains both. -/
theorem c5_tee_preserves_chunks (l : List Chunk) (sched : List Bool)
    (ha : l.length ≤ sched.count true) (hb : l.length ≤ sched.count false) :
    runTee (teeInit l) sched = (l, l) ∧ streamTee l = (l, l) :=
  ⟨runTee_full l sched ha hb, streamTee_eq l⟩

/-- Witness for C5 on a two-chunk stream and an alternating schedule. -/
theorem c5_tee_preserves_chunks_witness :
    runTee (teeInit ["a", "b"]) [false, true, true, false] = (["a", "b"], ["a", "b"]) ∧
      streamTee ["a", "b"] = (["a", "b"], ["a", "b"]) :=
  c5_tee_preserves_chunks ["a", "b"] [false, true, true, false] (by decide) (by decide)

/-- C9: the recording path logs a successful call exactly when the
`op-log-request` header is not "false", the key is not read-only, and the
model is not a fine-tune or the header is "true"; otherwise a successful
call writes no Logged Call. -/
theorem c9_log_request_condition (ctx : Ctx) (env : Env) (input : InputPayload) :
    (logRequestFlag ctx input.model = true ↔
      (ctx.opLogRequest ≠ some "false" ∧ ctx.key.readOnly = false ∧
        (startsWithOpenpipe input.model = false ∨ ctx.opLogRequest = some "true"))) ∧
    (logRequestFlag ctx input.model = false →
      (createChatCompletion ctx env input).result.isError = false →
      (createChatCompletion ctx env input).store.loggedCalls = []) := by
  constructor
  · simp only [logRequestFlag, Bool.and_eq_true, Bool.or_eq_true, Bool.not_eq_true',
      beq_iff_eq, beq_eq_false_iff_ne, Bool.not_eq_true]
    constructor
    · rintro ⟨⟨h1, h2⟩, h3⟩
      exact ⟨h2, h3, by tauto⟩
    · rintro ⟨h1, h2, h3⟩
      exact ⟨⟨by tauto, h1⟩, h2⟩
  · intro hflag hsucc
    rcases createChatCompletion_cases ctx env input with
      ⟨m, _, hout⟩ | ⟨tags, e, n, _, _, hout⟩ |
      ⟨tags, chunks, ft, n, _, _, hout⟩ | ⟨tags, c, ft, n, _, _, hout⟩
    · rw [hout] at hsucc; simp [CCResult.isError] at hsucc
    · rw [hout] at hsucc; simp [CCResult.isError] at hsucc
    · rw [hout]; simp [recordUsage, hflag, Store.empty]
    · rw [hout]; simp [recordUsage, hflag, Store.empty]

/-- Witness for C9: a read-only key disables logging, and the successful
call writes nothing. -/
theorem c9_log_request_condition_witness :
    (logRequestFlag ⟨⟨"proj-1", true⟩, none, .absent⟩ exInputUp.model = true ↔
      ((⟨⟨"proj-1", true⟩, none, .absent⟩ : Ctx).opLogRequest ≠ some "false" ∧
        (⟨⟨"proj-1", true⟩, none, .absent⟩ : Ctx).key.readOnly = false ∧
        (startsWithOpenpipe exInputUp.model = false ∨
          (⟨⟨"proj-1", true⟩, none, .absent⟩ : Ctx).opLogRequest = some "true"))) ∧
      (createChatCompletion ⟨⟨"proj-1", true⟩, none, .absent⟩ exEnv exInputUp).store.loggedCalls
        = [] :=
  ⟨(c9_log_request_condition ⟨⟨"proj-1", true⟩, none, .absent⟩ exEnv exInputUp).1,
    (c9_log_request_condition ⟨⟨"proj-1", true⟩, none, .absent⟩ exEnv exInputUp).2
      (by decide) (by decide)⟩

/-- An environment in which the requested fine-tune slug does not exist. -/
def exEnvNoFT : Env :=
  ⟨[], .success (.single ⟨"hello", some 5, some 7⟩),
    .success (.single ⟨"hey", some 3, some 2⟩), false, 100, 200⟩

/-- A fine-tune with the right slug but owned by a different project. -/
def exFineTuneOther : FineTune := ⟨"my-model", "proj-2"⟩

/-- An environment in which the fine-tune belongs to another project. -/
def exEnvOtherProj : Env :=
  ⟨[exFineTuneOther], .success (.single ⟨"hello", some 5, some 7⟩),
    .success (.single ⟨"hey", some 3, some 2⟩), false, 100, 200⟩

/-- An environment whose upstream provider reports an API error with a
provider status code. -/
def exEnvApiErr : Env :=
  ⟨[exFineTune], .success (.single ⟨"hello", some 5, some 7⟩),
    .apiError 429 "rate limited", false, 100, 200⟩

/-- An environment whose upstream provider fails without a provider status
code. -/
def exEnvOtherErr : Env :=
  ⟨[exFineTune], .success (.single ⟨"hello", some 5, some 7⟩),
    .otherError "socket hang up", false, 100, 200⟩

/-- C2: a custom-model request whose slug resolves to no record fails with
NotFoundError, and one resolving to a record of a different project fails
with ForbiddenError — in both cases with zero provider invocations. -/
theorem c2_custom_model_auth (ctx : Ctx) (env : Env) (input : InputPayload)
    (htags : ctx.opTags.isMalformed = false)
    (hft : startsWithOpenpipe input.model = true) :
    (lookupFineTune env (modelSlug input.model) = none →
      (createChatCompletion ctx env input).result.errorCode = some NOT_FOUND ∧
        (createChatCompletion ctx env input).providerCalls = 0) ∧
    (∀ ft, lookupFineTune env (modelSlug input.model) = some ft →
      ft.projectId ≠ ctx.key.projectId →
      (createChatCompletion ctx env input).result.errorCode = some FORBIDDEN ∧
        (createChatCompletion ctx env input).providerCalls = 0) := by
  constructor
  · intro hlook
    cases hops : ctx.opTags with
    | malformed m => rw [hops] at htags; simp [TagsHeader.isMalformed] at htags
    | absent =>
      constructor <;>
        simp [createChatCompletion, parseTagsHeader, hops, dispatch, hft, hlook,
          CCResult.errorCode]
    | valid ts =>
      constructor <;>
        simp [createChatCompletion, parseTagsHeader, hops, dispatch, hft, hlook,
          CCResult.errorCode]
  · intro ft hlook hproj
    cases hops : ctx.opTags with
    | malformed m => rw [hops] at htags; simp [TagsHeader.isMalformed] at htags
    | absent =>
      constructor <;>
        simp [createChatCompletion, parseTagsHeader, hops, dispatch, hft, hlook, hproj,
          CCResult.errorCode]
    | valid ts =>
      constructor <;>
        simp [createChatCompletion, parseTagsHeader, hops, dispatch, hft, hlook, hproj,
          CCResult.errorCode]

/-- Witness for C2: an unknown slug yields 404 and a foreign-project slug
yields 403, with zero provider calls in each case. -/
theorem c2_custom_model_auth_witness :
    ((createChatCompletion exCtx exEnvNoFT exInputFT).result.errorCode = some NOT_FOUND ∧
      (createChatCompletion exCtx exEnvNoFT exInputFT).providerCalls = 0) ∧
      ((createChatCompletion exCtx exEnvOtherProj exInputFT).result.errorCode = some FORBIDDEN ∧
        (createChatCompletion exCtx exEnvOtherProj exInputFT).providerCalls = 0) :=
  ⟨(c2_custom_model_auth exCtx exEnvNoFT exInputFT (by decide) (by decide)).1 (by decide),
    (c2_custom_model_auth exCtx exEnvOtherProj exInputFT (by decide) (by decide)).2
      exFineTuneOther (by decide) (by decide)⟩

/-- C6: on the upstream branch, a provider-reported API error is re-raised
with the provider's own status (pass-through), and any other upstream
failure is wrapped as BadRequestError. -/
theorem c6_upstream_error_passthrough (ctx : Ctx) (env : Env) (input : InputPayload)
    (htags : ctx.opTags.isMalformed = false)
    (hup : startsWithOpenpipe input.model = false) :
    (∀ status msg, env.openaiOutcome = .apiError status msg →
      (createChatCompletion ctx env input).result
          = .error ⟨trpcCodeFromHttpStatus status, msg⟩ ∧
        trpcCodeFromHttpStatus status = status) ∧
    (∀ msg, env.openaiOutcome = .otherError msg →
      (createChatCompletion ctx env input).result
        = .error ⟨BAD_REQUEST, "Failed to get OpenAI completion: " ++ msg⟩) := by
  constructor
  · intro status msg hout
    refine ⟨?_, rfl⟩
    cases hops : ctx.opTags with
    | malformed m => rw [hops] at htags; simp [TagsHeader.isMalformed] at htags
    | absent => simp [createChatCompletion, parseTagsHeader, hops, dispatch, hup, hout]
    | valid ts => simp [createChatCompletion, parseTagsHeader, hops, dispatch, hup, hout]
  · intro msg hout
    cases hops : ctx.opTags with
    | malformed m => rw [hops] at htags; simp [TagsHeader.isMalformed] at htags
    | absent => simp [createChatCompletion, parseTagsHeader, hops, dispatch, hup, hout]
    | valid ts => simp [createChatCompletion, parseTagsHeader, hops, dispatch, hup, hout]

/-- Witness for C6: a 429 API error passes through as 429; a socket error
becomes BAD_REQUEST. -/
theorem c6_upstream_error_passthrough_witness :
    ((createChatCompletion exCtx exEnvApiErr exInputUp).result
        = .error ⟨trpcCodeFromHttpStatus 429, "rate limited"⟩ ∧
      trpcCodeFromHttpStatus 429 = 429) ∧
      (createChatCompletion exCtx exEnvOtherErr exInputUp).result
        = .error ⟨BAD_REQUEST, "Failed to get OpenAI completion: " ++ "socket hang up"⟩ :=
  ⟨(c6_upstream_error_passthrough exCtx exEnvApiErr exInputUp (by decide) (by decide)).1
      429 "rate limited" rfl,
    (c6_upstream_error_passthrough exCtx exEnvOtherErr exInputUp (by decide) (by decide)).2
      "socket hang up" rfl⟩

/-- C1 counterexample: a valid request for a fine-tuned model with no
`op-log-request` header succeeds, yet zero (not exactly one) Logged Calls
are written, because `logRequest` defaults to false for fine-tuned
models. -/
theorem c1_counterexample :
    (createChatCompletion exCtx exEnv exInputFT).result
        = .singleResult ⟨"hello", some 5, some 7⟩ ∧
      (createChatCompletion exCtx exEnv exInputFT).store.loggedCalls.length ≠ 1 := by
  constructor
  · decide
  · decide

/-- C1 (amended): with a working log store, every erroring request writes
exactly one Logged Call, and every successful request writes exactly one
when the `logRequest` flag is enabled and none otherwise. -/
theorem c1_amended_logging (ctx : Ctx) (env : Env) (input : InputPayload)
    (hstore : env.storageFails = false) :
    ((createChatCompletion ctx env input).result.isError = true →
      (createChatCompletion ctx env input).store.loggedCalls.length = 1) ∧
    ((createChatCompletion ctx env input).result.isError = false →
      (createChatCompletion ctx env input).store.loggedCalls.length
        = if logRequestFlag ctx input.model then 1 else 0) := by
  rcases createChatCompletion_cases ctx env input with
    ⟨m, _, hout⟩ | ⟨tags, e, n, _, _, hout⟩ |
    ⟨tags, chunks, ft, n, _, _, hout⟩ | ⟨tags, c, ft, n, _, _, hout⟩
  · rw [hout]
    refine ⟨fun _ => ?_, fun h => ?_⟩
    · simp [logFailedCall, recordLoggedCall, hstore, Store.empty]
    · simp [CCResult.isError] at h
  · rw [hout]
    refine ⟨fun _ => ?_, fun h => ?_⟩
    · simp [logFailedCall, recordLoggedCall, hstore, Store.empty]
    · simp [CCResult.isError] at h
  · rw [hout]
    refine ⟨fun h => ?_, fun _ => ?_⟩
    · simp [CCResult.isError] at h
    · cases hflag : logRequestFlag ctx input.model <;>
        simp [recordUsage, hflag, recordLoggedCall, hstore, Store.empty]
  · rw [hout]
    refine ⟨fun h => ?_, fun _ => ?_⟩
    · simp [CCResult.isError] at h
    · cases hflag : logRequestFlag ctx input.model <;>
        simp [recordUsage, hflag, recordLoggedCall, hstore, Store.empty]

/-- Witness for C1 (amended): an erroring request logs exactly one call;
a successful upstream request logs per its flag. -/
theorem c1_amended_logging_witness :
    (createChatCompletion exCtx exEnvNoFT exInputFT).store.loggedCalls.length = 1 ∧
      (createChatCompletion exCtx exEnv exInputUp).store.loggedCalls.length
        = if logRequestFlag exCtx exInputUp.model then 1 else 0 :=
  ⟨(c1_amended_logging exCtx exEnvNoFT exInputFT rfl).1 (by decide),
    (c1_amended_logging exCtx exEnv exInputUp rfl).2 (by decide)⟩

/-- C7 counterexample: the Logged Call written for a request naming a
nonexistent custom model stores the error object as its response payload,
not a null payload as the claim states. -/
theorem c7_counterexample :
    ((createChatCompletion exCtx exEnvNoFT exInputFT).store.loggedCalls.map
        fun c => c.respPayload)
      = [RawPayload.errObj 404 "The model `openpipe:my-model` does not exist"] ∧
    RawPayload.errObj 404 "The model `openpipe:my-model` does not exist" ≠ RawPayload.absent := by
  constructor
  · decide
  · decide

/-- C7 (amended): a request naming a nonexistent custom-model slug fails
with NotFound, and exactly one failed Logged Call is written with status
code 404 whose response payload is the error object (code and message),
not null. -/
theorem c7_amended_notfound_logged (ctx : Ctx) (env : Env) (input : InputPayload)
    (htags : ctx.opTags.isMalformed = false)
    (hstore : env.storageFails = false)
    (hft : startsWithOpenpipe input.model = true)
    (hlook : lookupFineTune env (modelSlug input.model) = none) :
    (createChatCompletion ctx env input).result
        = .error ⟨NOT_FOUND, "The model `" ++ input.model ++ "` does not exist"⟩ ∧
      (createChatCompletion ctx env input).store.loggedCalls.length = 1 ∧
      ∀ c ∈ (createChatCompletion ctx env input).store.loggedCalls,
        c.statusCode = some 404 ∧
          c.respPayload = .errObj NOT_FOUND ("The model `" ++ input.model ++ "` does not exist") ∧
          c.respPayload ≠ .absent := by
  cases hops : ctx.opTags with
  | malformed m => rw [hops] at htags; simp [TagsHeader.isMalformed] at htags
  | absent =>
    refine ⟨?_, ?_, ?_⟩ <;>
      simp [createChatCompletion, parseTagsHeader, hops, dispatch, hft, hlook,
        logFailedCall, recordLoggedCall, hstore, Store.empty, statusCodeFromTrpcCode,
        NOT_FOUND]
  | valid ts =>
    refine ⟨?_, ?_, ?_⟩ <;>
      simp [createChatCompletion, parseTagsHeader, hops, dispatch, hft, hlook,
        logFailedCall, recordLoggedCall, hstore, Store.empty, statusCodeFromTrpcCode,
        NOT_FOUND]

/-- Witness for C7 (amended) at the scenario's concrete input. -/
theorem c7_amended_notfound_logged_witness :
    (createChatCompletion exCtx exEnvNoFT exInputFT).result
        = .error ⟨NOT_FOUND, "The model `" ++ exInputFT.model ++ "` does not exist"⟩ ∧
      (createChatCompletion exCtx exEnvNoFT exInputFT).store.loggedCalls.length = 1 ∧
      ∀ c ∈ (createChatCompletion exCtx exEnvNoFT exInputFT).store.loggedCalls,
        c.statusCode = some 404 ∧
          c.respPayload
            = .errObj NOT_FOUND ("The model `" ++ exInputFT.model ++ "` does not exist") ∧
          c.respPayload ≠ .absent :=
  c7_amended_notfound_logged exCtx exEnvNoFT exInputFT (by decide) rfl (by decide) (by decide)

/-- The dispatch step never reads the storage-failure oracle. -/
theorem dispatch_storageFails (env : Env) (b : Bool) (key : ApiKey) (input : InputPayload) :
    dispatch { env with storageFails := b } key input = dispatch env key input := rfl

/-- C4: a storage failure in the recording path never changes the
caller-facing result; the failed write is dropped (no Logged Call row) and
the exception is captured by the observability sink on every path that
attempts a write. -/
theorem c4_recorder_isolation (ctx : Ctx) (env : Env) (input : InputPayload) :
    ((createChatCompletion ctx { env with storageFails := true } input).result
        = (createChatCompletion ctx { env with storageFails := false } input).result) ∧
      (createChatCompletion ctx { env with storageFails := true } input).store.loggedCalls
        = [] ∧
      ((createChatCompletion ctx { env with storageFails := true } input).result.isError = true →
        (createChatCompletion ctx { env with storageFails := true } input).store.sentry ≠ []) ∧
      ((createChatCompletion ctx { env with storageFails := true } input).result.isError = false →
        logRequestFlag ctx input.model = true →
        (createChatCompletion ctx { env with storageFails := true } input).store.sentry ≠ []) := by
  rcases hd : dispatch env ctx.key input with ⟨exc, n⟩
  have hdT := (dispatch_storageFails env true ctx.key input).trans hd
  have hdF := (dispatch_storageFails env false ctx.key input).trans hd
  cases hops : ctx.opTags with
  | malformed m =>
    refine ⟨?_, ?_, ?_, ?_⟩ <;>
      simp [createChatCompletion, parseTagsHeader, hops, logFailedCall, recordLoggedCall,
        Store.empty, CCResult.isError]
  | absent =>
    cases exc with
    | error e =>
      refine ⟨?_, ?_, ?_, ?_⟩ <;>
        simp [createChatCompletion, parseTagsHeader, hops, hdT, hdF, logFailedCall,
          recordLoggedCall, Store.empty, CCResult.isError]
    | ok pr =>
      rcases pr with ⟨comp, ft⟩
      cases comp with
      | stream chunks =>
        cases hflag : logRequestFlag ctx input.model <;>
          refine ⟨?_, ?_, ?_, ?_⟩ <;>
            simp [createChatCompletion, parseTagsHeader, hops, hdT, hdF, recordUsage, hflag,
              recordLoggedCall, Store.empty, CCResult.isError]
      | single c =>
        cases hflag : logRequestFlag ctx input.model <;>
          refine ⟨?_, ?_, ?_, ?_⟩ <;>
            simp [createChatCompletion, parseTagsHeader, hops, hdT, hdF, recordUsage, hflag,
              recordLoggedCall, Store.empty, CCResult.isError]
  | valid ts =>
    cases exc with
    | error e =>
      refine ⟨?_, ?_, ?_, ?_⟩ <;>
        simp [createChatCompletion, parseTagsHeader, hops, hdT, hdF, logFailedCall,
          recordLoggedCall, Store.empty, CCResult.isError]
    | ok pr =>
      rcases pr with ⟨comp, ft⟩
      cases comp with
      | stream chunks =>
        cases hflag : logRequestFlag ctx input.model <;>
          refine ⟨?_, ?_, ?_, ?_⟩ <;>
            simp [createChatCompletion, parseTagsHeader, hops, hdT, hdF, recordUsage, hflag,
              recordLoggedCall, Store.empty, CCResult.isError]
      | single c =>
        cases hflag : logRequestFlag ctx input.model <;>
          refine ⟨?_, ?_, ?_, ?_⟩ <;>
            simp [createChatCompletion, parseTagsHeader, hops, hdT, hdF, recordUsage, hflag,
              recordLoggedCall, Store.empty, CCResult.isError]

/-- Witness for C4: on a successful logged upstream call, a failing store
leaves the caller's result unchanged, drops the row, and captures the
exception. -/
theorem c4_recorder_isolation_witness :
    ((createChatCompletion exCtx { exEnv with storageFails := true } exInputUp).result
        = (createChatCompletion exCtx { exEnv with storageFails := false } exInputUp).result) ∧
      (createChatCompletion exCtx { exEnv with storageFails := true } exInputUp).store.loggedCalls
        = [] ∧
      (createChatCompletion exCtx { exEnv with storageFails := true } exInputUp).store.sentry
        ≠ [] :=
  ⟨(c4_recorder_isolation exCtx exEnv exInputUp).1,
    (c4_recorder_isolation exCtx exEnv exInputUp).2.1,
    (c4_recorder_isolation exCtx exEnv exInputUp).2.2.2 (by decide) (by decide)⟩

/-- Shape of `report` for a non-read-only key: status ok, and one recording
attempt whose row carries the raw payloads as supplied and the server-side
recomputed usage. -/
theorem report_ok_shape (ctx : Ctx) (env : Env) (input : ReportInput)
    (hro : ctx.key.readOnly = false) :
    (report ctx env input).result = .ok "ok" ∧
      (report ctx env input).store = recordLoggedCall env.storageFails
        { projectId := ctx.key.projectId
          requestedAt := defaultRequestedAt input.requestedAt env.requestedAtTime
          receivedAt := input.receivedAt
          reqPayload := input.reqPayload
          respPayload := input.respPayload
          statusCode := input.statusCode
          errorMessage := input.errorMessage
          usage :=
            match reqValidatorSpa input.reqPayload, chatCompletionOutputSpa input.respPayload with
            | some req, some resp =>
                some (calculateUsage req resp (lookupFineTune env (modelSlug req.model)))
            | _, _ => none
          tags := parseTags input.tags } Store.empty := by
  constructor <;> simp [report, hro]

/-- C8: `report` recomputes usage server-side with `calculateUsage` from
the supplied request/response payloads (its input schema carries no usage
field a caller could supply), and leaves usage unset — returning ok, not an
error — when the response payload is absent or does not validate. -/
theorem c8_report_usage_recomputed (ctx : Ctx) (env : Env) (input : ReportInput)
    (hro : ctx.key.readOnly = false) :
    (chatCompletionOutputSpa input.respPayload = none →
      (report ctx env input).result = .ok "ok" ∧
        ∀ c ∈ (report ctx env input).store.loggedCalls, c.usage = none) ∧
    (∀ req resp, reqValidatorSpa input.reqPayload = some req →
      chatCompletionOutputSpa input.respPayload = some resp →
      ∀ c ∈ (report ctx env input).store.loggedCalls,
        c.usage = some (calculateUsage req resp (lookupFineTune env (modelSlug req.model)))) := by
  constructor
  · intro hresp
    refine ⟨(report_ok_shape ctx env input hro).1, ?_⟩
    intro c hc
    rw [(report_ok_shape ctx env input hro).2] at hc
    cases hsf : env.storageFails with
    | true => simp [recordLoggedCall, hsf, Store.empty] at hc
    | false =>
      simp [recordLoggedCall, hsf, Store.empty] at hc
      subst hc
      cases hreq : reqValidatorSpa input.reqPayload <;> simp [hreq, hresp]
  · intro req resp hreq hresp c hc
    rw [(report_ok_shape ctx env input hro).2] at hc
    cases hsf : env.storageFails with
    | true => simp [recordLoggedCall, hsf, Store.empty] at hc
    | false =>
      simp [recordLoggedCall, hsf, Store.empty] at hc
      subst hc
      simp [hreq, hresp]

/-- A `report` body whose response payload is absent. -/
def exReportNoResp : ReportInput :=
  ⟨some 1, some 2, .reqP exInputUp, .absent, some 500, some "it broke", []⟩

/-- Witness for C8: an absent response payload yields ok with usage unset;
valid payloads yield the recomputed usage. -/
theorem c8_report_usage_recomputed_witness :
    ((report exCtx exEnv exReportNoResp).result = .ok "ok" ∧
      ∀ c ∈ (report exCtx exEnv exReportNoResp).store.loggedCalls, c.usage = none) ∧
      ∀ c ∈ (report exCtx exEnv exReportInput).store.loggedCalls,
        c.usage = some (calculateUsage exInputUp ⟨"hey", some 3, some 2⟩
          (lookupFineTune exEnv (modelSlug exInputUp.model))) :=
  ⟨(c8_report_usage_recomputed exCtx exEnv exReportNoResp rfl).1 rfl,
    (c8_report_usage_recomputed exCtx exEnv exReportInput rfl).2
      exInputUp ⟨"hey", some 3, some 2⟩ rfl rfl⟩

/-- C10: `report` by a non-read-only key whose request or response payload
fails schema validation still writes one Logged Call — usage unset, raw
payloads stored as supplied — and returns ok rather than an error. -/
theorem c10_report_invalid_payload_logged (ctx : Ctx) (env : Env) (input : ReportInput)
    (hro : ctx.key.readOnly = false) (hstore : env.storageFails = false)
    (hinvalid : reqValidatorSpa input.reqPayload = none ∨
      chatCompletionOutputSpa input.respPayload = none) :
    (report ctx env input).result = .ok "ok" ∧
      (report ctx env input).store.loggedCalls.length = 1 ∧
      ∀ c ∈ (report ctx env input).store.loggedCalls,
        c.usage = none ∧ c.reqPayload = input.reqPayload ∧
          c.respPayload = input.respPayload := by
  refine ⟨(report_ok_shape ctx env input hro).1, ?_, ?_⟩
  · rw [(report_ok_shape ctx env input hro).2]
    simp [recordLoggedCall, hstore, Store.empty]
  · intro c hc
    rw [(report_ok_shape ctx env input hro).2] at hc
    simp [recordLoggedCall, hstore, Store.empty] at hc
    subst hc
    refine ⟨?_, rfl, rfl⟩
    rcases hinvalid with h | h
    · cases hresp : chatCompletionOutputSpa input.respPayload <;> simp [h, hresp]
    · cases hreq : reqValidatorSpa input.reqPayload <;> simp [h, hreq]

/-- A `report` body whose request payload does not validate against the
chat-completion request schema. -/
def exReportBadReq : ReportInput :=
  ⟨none, none, .other "oops", .respP ⟨"hey", some 3, some 2⟩, none, none, [("K", .null)]⟩

/-- Witness for C10 at a body with an invalid request payload. -/
theorem c10_report_invalid_payload_logged_witness :
    (report exCtx exEnv exReportBadReq).result = .ok "ok" ∧
      (report exCtx exEnv exReportBadReq).store.loggedCalls.length = 1 ∧
      ∀ c ∈ (report exCtx exEnv exReportBadReq).store.loggedCalls,
        c.usage = none ∧ c.reqPayload = exReportBadReq.reqPayload ∧
          c.respPayload = exReportBadReq.respPayload :=
  c10_report_invalid_payload_logged exCtx exEnv exReportBadReq rfl rfl (Or.inl rfl)

end OpenPipe
